import Mathlib

/-!
Verification of the identity-verification core of `cred-extract`:
the OTP lifecycle (`backend/app/services/otp_service.py`,
`backend/app/routers/otp.py`) and the face-matching pipeline
(`backend/app/services/yolo_face_service.py`,
`backend/app/services/face_recognition_service.py`).

Timestamps are modelled as natural numbers counting seconds, the OTP
store as an association list keyed by phone string (a Python `dict`
with unique keys), and the random 6-digit code generator as a function
of six digit choices.  Descriptor distances in the matcher are modelled
as rationals.
-/

namespace CredExtract

/-! ### OTP data model (`otp_service.py`) -/

/-- One entry of `OTPService.otp_storage`: the stored code, its expiry
timestamp (seconds), and the attempt counter. -/
structure OTPRecord where
  otp : String
  expiry : Nat
  attempts : Nat
deriving DecidableEq, Repr

/-- The in-memory store `self.otp_storage`, a dict keyed by phone. -/
abbrev OTPStore := List (String × OTPRecord)

/-- Dict lookup `self.otp_storage[phone]` / membership test. -/
def storeGet (store : OTPStore) (phone : String) : Option OTPRecord :=
  match store with
  | [] => none
  | e :: rest => if e.1 = phone then some e.2 else storeGet rest phone

/-- Dict deletion `del self.otp_storage[phone]`. -/
def storeDel (store : OTPStore) (phone : String) : OTPStore :=
  match store with
  | [] => []
  | e :: rest => if e.1 = phone then storeDel rest phone else e :: storeDel rest phone

/-- Dict assignment `self.otp_storage[phone] = record`. -/
def storeSet (store : OTPStore) (phone : String) (r : OTPRecord) : OTPStore :=
  match store with
  | [] => [(phone, r)]
  | e :: rest => if e.1 = phone then (phone, r) :: rest else e :: storeSet rest phone r

/-- `re.sub(r'\D', '', phone)`: drop every non-digit character. -/
def stripNonDigits (s : String) : String :=
  String.mk (s.toList.filter Char.isDigit)

/-- `OTPService.validate_phone`: after stripping non-digits the number
must have exactly 10 digits and start with 6, 7, 8 or 9. -/
def validate_phone (phone : String) : Bool :=
  let phone_clean := stripNonDigits phone
  phone_clean.length == 10 &&
    (match phone_clean.toList with
     | c :: _ => c == '6' || c == '7' || c == '8' || c == '9'
     | [] => false)

/-- `self.otp_expiry_minutes` -/
def otp_expiry_minutes : Nat := 5

/-- `random.choices(string.digits, k=6)` joined: six digit characters
chosen by `pick`. -/
def genCode (pick : Fin 6 → Fin 10) : String :=
  String.mk ((List.finRange 6).map (fun i => Char.ofNat (48 + (pick i).val)))

/-- Outcome of `OTPService.generate_otp` (the raised exception on an
invalid phone is the `invalidPhone` variant). -/
inductive GenerateResult where
  | ok (otp : String)
  | invalidPhone
deriving DecidableEq, Repr

/-- `OTPService.generate_otp`, with the freshly drawn code passed in as
`otp`.  Stores the record with `expiry = now + 5 minutes`. -/
def generate_otp (now : Nat) (store : OTPStore) (phone otp : String) :
    GenerateResult × OTPStore :=
  if validate_phone phone then
    (GenerateResult.ok otp,
     storeSet store phone
       { otp := otp, expiry := now + otp_expiry_minutes * 60, attempts := 0 })
  else
    (GenerateResult.invalidPhone, store)

/-- Classification of the outcomes of `OTPService.verify_otp`; each
failure variant is one of the raised exception messages. -/
inductive VerifyResult where
  | ok
  | invalidPhone
  | noOtpFound
  | otpExpired
  | attemptsExceeded
  | invalidOtp (attempts_remaining : Nat)
deriving DecidableEq, Repr

/-- `OTPService.verify_otp`: expiry check deletes, attempt-limit check
deletes, then the attempt counter is incremented before the code
comparison; success deletes, failure stores the incremented counter and
reports `3 - attempts` attempts remaining. -/
def verify_otp (now : Nat) (store : OTPStore) (phone provided_otp : String) :
    VerifyResult × OTPStore :=
  if validate_phone phone then
    match storeGet store phone with
    | none => (VerifyResult.noOtpFound, store)
    | some otp_data =>
      if now > otp_data.expiry then
        (VerifyResult.otpExpired, storeDel store phone)
      else if otp_data.attempts ≥ 3 then
        (VerifyResult.attemptsExceeded, storeDel store phone)
      else
        let incremented := { otp_data with attempts := otp_data.attempts + 1 }
        if otp_data.otp = provided_otp then
          (VerifyResult.ok, storeDel store phone)
        else
          (VerifyResult.invalidOtp (3 - incremented.attempts),
           storeSet store phone incremented)
  else
    (VerifyResult.invalidPhone, store)

/-- Result of `OTPService.get_otp_status`. -/
inductive OtpStatus where
  | absent (message : String)
  | present (attempts_remaining : Nat) (expires_in_seconds : Nat)
deriving DecidableEq, Repr

/-- `OTPService.get_otp_status`: lazily deletes an expired record. -/
def get_otp_status (now : Nat) (store : OTPStore) (phone : String) :
    OtpStatus × OTPStore :=
  match storeGet store phone with
  | none => (OtpStatus.absent "No OTP found for this phone number", store)
  | some otp_data =>
    if now > otp_data.expiry then
      (OtpStatus.absent "OTP has expired", storeDel store phone)
    else
      (OtpStatus.present (3 - otp_data.attempts) (otp_data.expiry - now), store)

/-- `OTPService.cleanup_expired_otps`: collect expired phones, delete
each, return the count removed. -/
def cleanup_expired_otps (now : Nat) (store : OTPStore) : Nat × OTPStore :=
  let expired_phones := (store.filter (fun e => decide (now > e.2.expiry))).map (·.1)
  (expired_phones.length, expired_phones.foldl (fun s p => storeDel s p) store)

/-! ### OTP router (`routers/otp.py`) -/

/-- Python `str.strip()`: drop leading and trailing whitespace. -/
def pyStrip (s : String) : String :=
  String.mk
    (((s.toList.dropWhile Char.isWhitespace).reverse.dropWhile Char.isWhitespace).reverse)

/-- Scanner for Python `str.replace`: left to right, on a pattern match
emit the replacement and skip the pattern, otherwise advance one
character.  The fuel argument (instantiated with the input length) only
makes the recursion structural. -/
def replaceGo (pat repl : List Char) : Nat → List Char → List Char
  | _, [] => []
  | 0, l => l
  | fuel + 1, c :: rest =>
    if pat.isPrefixOf (c :: rest) then
      repl ++ replaceGo pat repl fuel ((c :: rest).drop pat.length)
    else
      c :: replaceGo pat repl fuel rest

/-- Python `s.replace(pat, repl)` for a non-empty pattern. -/
def pyReplace (s pat repl : String) : String :=
  String.mk (replaceGo pat.toList repl.toList s.toList.length s.toList)

/-- `phone.replace('+91', '').replace('-', '').replace(' ', '')` -/
def clean_phone (phone : String) : String :=
  pyReplace (pyReplace (pyReplace phone "+91" "") "-" "") " " ""

/-- Outcome of the `/generate-otp` and `/resend-otp` endpoints. -/
inductive RouterGenerateResult where
  | invalidPhone
  | alreadySent (status : OtpStatus)
  | generated (otp : String)
deriving DecidableEq, Repr

/-- The `/generate-otp` endpoint: strip, validate, clean, refuse when a
valid OTP already exists, otherwise generate and store a fresh code. -/
def router_generate_otp (now : Nat) (store : OTPStore) (phone : String)
    (pick : Fin 6 → Fin 10) : RouterGenerateResult × OTPStore :=
  let phone1 := pyStrip phone
  if validate_phone phone1 then
    let phone_clean := clean_phone phone1
    let sres := get_otp_status now store phone_clean
    match sres.1 with
    | OtpStatus.present a e =>
        (RouterGenerateResult.alreadySent (OtpStatus.present a e), sres.2)
    | OtpStatus.absent _ =>
        match generate_otp now sres.2 phone_clean (genCode pick) with
        | (GenerateResult.ok otp, store2) => (RouterGenerateResult.generated otp, store2)
        | (GenerateResult.invalidPhone, store2) => (RouterGenerateResult.invalidPhone, store2)
  else
    (RouterGenerateResult.invalidPhone, store)

/-- The `/resend-otp` endpoint: strip, clean, validate the cleaned
number, discard any existing record, then generate. -/
def router_resend_otp (now : Nat) (store : OTPStore) (phone : String)
    (pick : Fin 6 → Fin 10) : RouterGenerateResult × OTPStore :=
  let phone_clean := clean_phone (pyStrip phone)
  if validate_phone phone_clean then
    let store1 := if (storeGet store phone_clean).isSome then storeDel store phone_clean else store
    match generate_otp now store1 phone_clean (genCode pick) with
    | (GenerateResult.ok otp, store2) => (RouterGenerateResult.generated otp, store2)
    | (GenerateResult.invalidPhone, store2) => (RouterGenerateResult.invalidPhone, store2)
  else
    (RouterGenerateResult.invalidPhone, store)

/-! ### Face pipeline (`yolo_face_service.py`, `face_recognition_service.py`) -/

/-- A detected face's bounding box `[x, y, w, h]`. -/
structure FaceBox where
  x : Nat
  y : Nat
  w : Nat
  h : Nat
deriving DecidableEq, Repr

/-- `f['bbox'][2] * f['bbox'][3]`: area of a detected face. -/
def faceArea (f : FaceBox) : Nat := f.w * f.h

/-- `max(faces, key=lambda f: f['bbox'][2] * f['bbox'][3])`: first face
of maximal area (Python `max` keeps the earliest maximum). -/
def largestFace (f : FaceBox) (fs : List FaceBox) : FaceBox :=
  fs.foldl (fun best g => if faceArea g > faceArea best then g else best) f

/-- The `{is_valid, reason}` dict returned by the validators. -/
structure QualityResult where
  is_valid : Bool
  reason : String
deriving DecidableEq, Repr

/-- `YOLOFaceService.validate_face_quality`, applied to the face list
returned by detection: invalid on zero faces or when the largest face's
area is below 1000 px²; otherwise valid (face count not inspected). -/
def validate_face_quality (faces : List FaceBox) : QualityResult :=
  match faces with
  | [] => { is_valid := false, reason := "No face detected in image" }
  | f :: fs =>
    let face_area := faceArea (largestFace f fs)
    if face_area < 1000 then
      { is_valid := false, reason := "Face too small or unclear" }
    else
      { is_valid := true, reason := "Face detected and quality validated" }

/-- `HighAccuracyFaceService._validate_with_opencv`, applied to the
decode result (`none` = `cv2.imdecode` failure) and the detected face
list: invalid on decode failure, zero faces, or more than one face. -/
def validate_with_opencv (decoded : Option (List FaceBox)) : QualityResult :=
  match decoded with
  | none => { is_valid := false, reason := "Failed to decode image" }
  | some faces =>
    if faces.length = 0 then
      { is_valid := false, reason := "No face detected" }
    else if faces.length > 1 then
      { is_valid := false,
        reason := "Multiple faces detected (" ++ toString faces.length ++ ")" }
    else
      { is_valid := true, reason := "Face detected" }

/-- Lowe's ratio test in `compare_faces_yolo`: a `knnMatch` pair is a
good match when it has two neighbours with `m.distance < 0.7 * n.distance`. -/
def isGoodMatch (match_pair : List ℚ) : Bool :=
  match match_pair with
  | [m, n] => decide (m < 7/10 * n)
  | _ => false

/-- The subset of the dict returned by
`YOLOFaceService.compare_faces_yolo` that the matching maths fills in. -/
structure MatchOutcome where
  is_match : Bool
  confidence : ℚ
  good_matches : Nat
  total_features : Nat
deriving DecidableEq, Repr

/-- `match_threshold = 15` -/
def match_threshold : ℚ := 15

/-- The scoring tail of `YOLOFaceService.compare_faces_yolo`: given the
descriptor counts of the two faces and the `knnMatch` neighbour
distances, apply the ratio test, compute
`confidence = min(good / max(min(lenA, lenB), 1) * 100, 100)` and decide
the match at the 15% threshold; an empty match list short-circuits to a
zero-confidence non-match. -/
def compare_from_matches (lenA lenB : Nat) (knn_matches : List (List ℚ)) :
    MatchOutcome :=
  if knn_matches.length > 0 then
    let good_matches := knn_matches.filter isGoodMatch
    let total_features := min lenA lenB
    let match_ratio : ℚ := (good_matches.length : ℚ) / (max total_features 1 : ℚ)
    let confidence : ℚ := min (match_ratio * 100) 100
    { is_match := decide (confidence ≥ match_threshold),
      confidence := confidence,
      good_matches := good_matches.length,
      total_features := total_features }
  else
    { is_match := false, confidence := 0,
      good_matches := 0, total_features := min lenA lenB }

/-! ### Store lemmas -/

theorem storeGet_storeSet_self (store : OTPStore) (phone : String) (r : OTPRecord) :
    storeGet (storeSet store phone r) phone = some r := by
  induction store with
  | nil => simp [storeSet, storeGet]
  | cons e rest ih =>
    by_cases h : e.1 = phone
    · simp [storeSet, storeGet, h]
    · simp [storeSet, storeGet, h, ih]

theorem storeGet_storeSet_other (store : OTPStore) (phone p : String) (r : OTPRecord)
    (h : p ≠ phone) :
    storeGet (storeSet store phone r) p = storeGet store p := by
  induction store with
  | nil => simp [storeSet, storeGet, Ne.symm h]
  | cons e rest ih =>
    by_cases he : e.1 = phone
    · subst he
      simp [storeSet, storeGet, Ne.symm h]
    · simp only [storeSet, if_neg he, storeGet]
      by_cases hp : e.1 = p <;> simp [hp, ih]

theorem storeGet_storeDel_self (store : OTPStore) (phone : String) :
    storeGet (storeDel store phone) phone = none := by
  induction store with
  | nil => simp [storeDel, storeGet]
  | cons e rest ih =>
    by_cases h : e.1 = phone
    · simp [storeDel, h, ih]
    · simp [storeDel, storeGet, h, ih]

theorem storeGet_storeDel_other (store : OTPStore) (phone p : String) (h : p ≠ phone) :
    storeGet (storeDel store phone) p = storeGet store p := by
  induction store with
  | nil => simp [storeDel]
  | cons e rest ih =>
    by_cases he : e.1 = phone
    · subst he
      simp [storeDel, storeGet, Ne.symm h, ih]
    · simp only [storeDel, if_neg he, storeGet]
      by_cases hp : e.1 = p <;> simp [hp, ih]

theorem mem_storeDel (store : OTPStore) (phone : String) (e : String × OTPRecord)
    (h : e ∈ storeDel store phone) : e ∈ store := by
  induction store with
  | nil => exact h
  | cons f rest ih =>
    by_cases hf : f.1 = phone
    · simp only [storeDel, if_pos hf] at h
      exact List.mem_cons_of_mem f (ih h)
    · simp only [storeDel, if_neg hf, List.mem_cons] at h
      rcases h with h | h
      · exact h ▸ List.mem_cons_self f rest
      · exact List.mem_cons_of_mem f (ih h)

theorem mem_storeSet (store : OTPStore) (phone : String) (r : OTPRecord)
    (e : String × OTPRecord) (h : e ∈ storeSet store phone r) :
    e ∈ store ∨ e = (phone, r) := by
  induction store with
  | nil => exact Or.inr (by simpa [storeSet] using h)
  | cons f rest ih =>
    by_cases hf : f.1 = phone
    · simp only [storeSet, if_pos hf, List.mem_cons] at h
      rcases h with h | h
      · exact Or.inr h
      · exact Or.inl (List.mem_cons_of_mem f h)
    · simp only [storeSet, if_neg hf, List.mem_cons] at h
      rcases h with h | h
      · exact Or.inl (h ▸ List.mem_cons_self f rest)
      · rcases ih h with h' | h'
        · exact Or.inl (List.mem_cons_of_mem f h')
        · exact Or.inr h'

/-! ### Evaluation lemmas for the OTP operations -/

theorem verify_otp_eq_noOtpFound (now : Nat) (store : OTPStore) (phone code : String)
    (hv : validate_phone phone = true) (hget : storeGet store phone = none) :
    verify_otp now store phone code = (VerifyResult.noOtpFound, store) := by
  simp [verify_otp, hv, hget]

theorem verify_otp_eq_expired (now : Nat) (store : OTPStore) (phone code : String)
    (rec : OTPRecord) (hv : validate_phone phone = true)
    (hget : storeGet store phone = some rec) (hexp : now > rec.expiry) :
    verify_otp now store phone code = (VerifyResult.otpExpired, storeDel store phone) := by
  simp [verify_otp, hv, hget, hexp]

theorem verify_otp_eq_exceeded (now : Nat) (store : OTPStore) (phone code : String)
    (rec : OTPRecord) (hv : validate_phone phone = true)
    (hget : storeGet store phone = some rec) (hexp : ¬ now > rec.expiry)
    (ha : 3 ≤ rec.attempts) :
    verify_otp now store phone code =
      (VerifyResult.attemptsExceeded, storeDel store phone) := by
  simp [verify_otp, hv, hget, hexp, ha]

theorem verify_otp_eq_ok (now : Nat) (store : OTPStore) (phone code : String)
    (rec : OTPRecord) (hv : validate_phone phone = true)
    (hget : storeGet store phone = some rec) (hexp : ¬ now > rec.expiry)
    (ha : rec.attempts < 3) (hc : rec.otp = code) :
    verify_otp now store phone code = (VerifyResult.ok, storeDel store phone) := by
  simp [verify_otp, hv, hget, hexp, Nat.not_le.mpr ha, hc]

theorem verify_otp_eq_wrong (now : Nat) (store : OTPStore) (phone code : String)
    (rec : OTPRecord) (hv : validate_phone phone = true)
    (hget : storeGet store phone = some rec) (hexp : ¬ now > rec.expiry)
    (ha : rec.attempts < 3) (hc : rec.otp ≠ code) :
    verify_otp now store phone code =
      (VerifyResult.invalidOtp (3 - (rec.attempts + 1)),
       storeSet store phone { rec with attempts := rec.attempts + 1 }) := by
  simp [verify_otp, hv, hget, hexp, Nat.not_le.mpr ha, hc]

theorem get_otp_status_eq_absent_none (now : Nat) (store : OTPStore) (phone : String)
    (hget : storeGet store phone = none) :
    get_otp_status now store phone =
      (OtpStatus.absent "No OTP found for this phone number", store) := by
  simp [get_otp_status, hget]

theorem get_otp_status_eq_absent_expired (now : Nat) (store : OTPStore) (phone : String)
    (rec : OTPRecord) (hget : storeGet store phone = some rec)
    (hexp : now > rec.expiry) :
    get_otp_status now store phone =
      (OtpStatus.absent "OTP has expired", storeDel store phone) := by
  simp [get_otp_status, hget, hexp]

theorem get_otp_status_eq_present (now : Nat) (store : OTPStore) (phone : String)
    (rec : OTPRecord) (hget : storeGet store phone = some rec)
    (hexp : ¬ now > rec.expiry) :
    get_otp_status now store phone =
      (OtpStatus.present (3 - rec.attempts) (rec.expiry - now), store) := by
  simp [get_otp_status, hget, hexp]

theorem generate_otp_eq_ok (now : Nat) (store : OTPStore) (phone otp : String)
    (hv : validate_phone phone = true) :
    generate_otp now store phone otp =
      (GenerateResult.ok otp,
       storeSet store phone
         { otp := otp, expiry := now + otp_expiry_minutes * 60, attempts := 0 }) := by
  simp [generate_otp, hv]

/-! ### The attempt-count invariant -/

/-- Every record ever stored carries at most 3 attempts. -/
def AttemptsInv (store : OTPStore) : Prop :=
  ∀ e ∈ store, e.2.attempts ≤ 3

instance (store : OTPStore) : Decidable (AttemptsInv store) := by
  unfold AttemptsInv; infer_instance

theorem attemptsInv_storeDel (store : OTPStore) (phone : String)
    (h : AttemptsInv store) : AttemptsInv (storeDel store phone) :=
  fun e he => h e (mem_storeDel store phone e he)

theorem attemptsInv_storeSet (store : OTPStore) (phone : String) (r : OTPRecord)
    (h : AttemptsInv store) (hr : r.attempts ≤ 3) :
    AttemptsInv (storeSet store phone r) := by
  intro e he
  rcases mem_storeSet store phone r e he with h' | h'
  · exact h e h'
  · rw [h']; exact hr

theorem attemptsInv_foldl_storeDel (phones : List String) (store : OTPStore)
    (h : AttemptsInv store) :
    AttemptsInv (phones.foldl (fun s p => storeDel s p) store) := by
  induction phones generalizing store with
  | nil => exact h
  | cons p rest ih => exact ih _ (attemptsInv_storeDel store p h)

theorem attemptsInv_verify_otp (now : Nat) (store : OTPStore) (phone code : String)
    (h : AttemptsInv store) : AttemptsInv (verify_otp now store phone code).2 := by
  unfold verify_otp
  by_cases hv : validate_phone phone = true
  · rw [if_pos hv]
    cases hget : storeGet store phone with
    | none => exact h
    | some rec =>
      by_cases hexp : now > rec.expiry
      · simpa [hexp] using attemptsInv_storeDel store phone h
      · by_cases ha : rec.attempts ≥ 3
        · simpa [hexp, ha] using attemptsInv_storeDel store phone h
        · by_cases hc : rec.otp = code
          · simpa [hexp, ha, hc] using attemptsInv_storeDel store phone h
          · have ha' : rec.attempts + 1 ≤ 3 := Nat.lt_of_not_le ha
            simpa [hexp, ha, hc] using
              attemptsInv_storeSet store phone { rec with attempts := rec.attempts + 1 } h ha'
  · simp only [if_neg hv]
    exact h

theorem attemptsInv_generate_otp (now : Nat) (store : OTPStore) (phone otp : String)
    (h : AttemptsInv store) : AttemptsInv (generate_otp now store phone otp).2 := by
  unfold generate_otp
  by_cases hv : validate_phone phone = true
  · rw [if_pos hv]
    exact attemptsInv_storeSet store phone _ h (by simp)
  · simp only [if_neg hv]
    exact h

theorem attemptsInv_get_otp_status (now : Nat) (store : OTPStore) (phone : String)
    (h : AttemptsInv store) : AttemptsInv (get_otp_status now store phone).2 := by
  unfold get_otp_status
  cases hget : storeGet store phone with
  | none => exact h
  | some rec =>
    by_cases hexp : now > rec.expiry
    · simpa [hexp] using attemptsInv_storeDel store phone h
    · simpa [hexp] using h

theorem attemptsInv_cleanup (now : Nat) (store : OTPStore)
    (h : AttemptsInv store) : AttemptsInv (cleanup_expired_otps now store).2 := by
  unfold cleanup_expired_otps
  exact attemptsInv_foldl_storeDel _ store h

theorem attemptsInv_router_generate (now : Nat) (store : OTPStore) (phone : String)
    (pick : Fin 6 → Fin 10) (h : AttemptsInv store) :
    AttemptsInv (router_generate_otp now store phone pick).2 := by
  unfold router_generate_otp
  by_cases hv : validate_phone (pyStrip phone) = true
  · rw [if_pos hv]
    have hst := attemptsInv_get_otp_status now store (clean_phone (pyStrip phone)) h
    cases hs : (get_otp_status now store (clean_phone (pyStrip phone))).1 with
    | present a e => simpa [hs] using hst
    | absent m =>
      have hgen := attemptsInv_generate_otp now
        (get_otp_status now store (clean_phone (pyStrip phone))).2
        (clean_phone (pyStrip phone)) (genCode pick) hst
      simp only [hs]
      cases hg : generate_otp now (get_otp_status now store (clean_phone (pyStrip phone))).2
          (clean_phone (pyStrip phone)) (genCode pick) with
      | mk gres gstore =>
        rw [hg] at hgen
        cases gres <;> simpa [hg] using hgen
  · simp only [if_neg hv]
    exact h

theorem attemptsInv_router_resend (now : Nat) (store : OTPStore) (phone : String)
    (pick : Fin 6 → Fin 10) (h : AttemptsInv store) :
    AttemptsInv (router_resend_otp now store phone pick).2 := by
  unfold router_resend_otp
  by_cases hv : validate_phone (clean_phone (pyStrip phone)) = true
  · rw [if_pos hv]
    set store1 := if (storeGet store (clean_phone (pyStrip phone))).isSome then
        storeDel store (clean_phone (pyStrip phone)) else store with hstore1
    have h1 : AttemptsInv store1 := by
      rw [hstore1]
      by_cases hm : (storeGet store (clean_phone (pyStrip phone))).isSome
      · simpa [hm] using attemptsInv_storeDel store (clean_phone (pyStrip phone)) h
      · simpa [hm] using h
    have hgen := attemptsInv_generate_otp now store1 (clean_phone (pyStrip phone))
      (genCode pick) h1
    cases hg : generate_otp now store1 (clean_phone (pyStrip phone)) (genCode pick) with
    | mk gres gstore =>
      rw [hg] at hgen
      cases gres <;> simpa [hg] using hgen
  · simp only [if_neg hv]
    exact h

/-! ### Claim theorems -/

/-- C1 counterexample: for the phone `"9876543210"` holding the issued,
non-expired record `⟨"123456", 300, 0⟩`, three consecutive `verify`
calls with the wrong code `"000000"` produce a third failure classified
`InvalidOtp 0` — not `AttemptsExceeded` — and the record is still in the
store afterwards with `attempts = 3`, contradicting the claim. -/
theorem verify_third_wrong_call_not_exceeded_counterexample :
    ((verify_otp 0 ((verify_otp 0 ((verify_otp 0
        [("9876543210", ⟨"123456", 300, 0⟩)] "9876543210" "000000").2)
        "9876543210" "000000").2) "9876543210" "000000").1 =
      VerifyResult.invalidOtp 0) ∧
    ((verify_otp 0 ((verify_otp 0 ((verify_otp 0
        [("9876543210", ⟨"123456", 300, 0⟩)] "9876543210" "000000").2)
        "9876543210" "000000").2) "9876543210" "000000").1 ≠
      VerifyResult.attemptsExceeded) ∧
    storeGet ((verify_otp 0 ((verify_otp 0 ((verify_otp 0
        [("9876543210", ⟨"123456", 300, 0⟩)] "9876543210" "000000").2)
        "9876543210" "000000").2) "9876543210" "000000").2) "9876543210" =
      some ⟨"123456", 300, 3⟩ := by
  decide

/-- C1 (amended): starting from an issued, non-expired record with
`attempt_count = 0`, three consecutive wrong-code `verify` calls fail
with `InvalidOtp` reporting 2, 1 and 0 attempts remaining; after the
third call the record is still stored with `attempt_count = 3`, and a
fourth `verify` call (any code) fails with `AttemptsExceeded` and
removes the record. -/
theorem verify_three_wrong_then_fourth_exceeded
    (phone otp c1 c2 c3 c4 : String) (expiry n1 n2 n3 n4 : Nat) (store : OTPStore)
    (hv : validate_phone phone = true)
    (hget : storeGet store phone = some ⟨otp, expiry, 0⟩)
    (h1 : ¬ n1 > expiry) (h2 : ¬ n2 > expiry) (h3 : ¬ n3 > expiry) (h4 : ¬ n4 > expiry)
    (hc1 : otp ≠ c1) (hc2 : otp ≠ c2) (hc3 : otp ≠ c3) :
    (verify_otp n1 store phone c1).1 = VerifyResult.invalidOtp 2 ∧
    (verify_otp n2 (verify_otp n1 store phone c1).2 phone c2).1 =
      VerifyResult.invalidOtp 1 ∧
    (verify_otp n3 (verify_otp n2 (verify_otp n1 store phone c1).2 phone c2).2
        phone c3).1 = VerifyResult.invalidOtp 0 ∧
    storeGet (verify_otp n3 (verify_otp n2 (verify_otp n1 store phone c1).2 phone c2).2
        phone c3).2 phone = some ⟨otp, expiry, 3⟩ ∧
    (verify_otp n4 (verify_otp n3 (verify_otp n2 (verify_otp n1 store phone c1).2
        phone c2).2 phone c3).2 phone c4).1 = VerifyResult.attemptsExceeded ∧
    storeGet (verify_otp n4 (verify_otp n3 (verify_otp n2 (verify_otp n1 store phone c1).2
        phone c2).2 phone c3).2 phone c4).2 phone = none := by
  have e1 := verify_otp_eq_wrong n1 store phone c1 ⟨otp, expiry, 0⟩ hv hget h1
    (by simp) hc1
  have g1 : storeGet (verify_otp n1 store phone c1).2 phone = some ⟨otp, expiry, 1⟩ := by
    rw [e1]; exact storeGet_storeSet_self store phone _
  have e2 := verify_otp_eq_wrong n2 (verify_otp n1 store phone c1).2 phone c2
    ⟨otp, expiry, 1⟩ hv g1 h2 (by simp) hc2
  have g2 : storeGet (verify_otp n2 (verify_otp n1 store phone c1).2 phone c2).2 phone =
      some ⟨otp, expiry, 2⟩ := by
    rw [e2]; exact storeGet_storeSet_self _ phone _
  have e3 := verify_otp_eq_wrong n3
    (verify_otp n2 (verify_otp n1 store phone c1).2 phone c2).2 phone c3
    ⟨otp, expiry, 2⟩ hv g2 h3 (by simp) hc3
  have g3 : storeGet (verify_otp n3 (verify_otp n2 (verify_otp n1 store phone c1).2
      phone c2).2 phone c3).2 phone = some ⟨otp, expiry, 3⟩ := by
    rw [e3]; exact storeGet_storeSet_self _ phone _
  have e4 := verify_otp_eq_exceeded n4
    (verify_otp n3 (verify_otp n2 (verify_otp n1 store phone c1).2 phone c2).2
      phone c3).2 phone c4 ⟨otp, expiry, 3⟩ hv g3 h4 (by simp)
  refine ⟨by simp [e1], by simp [e2], by simp [e3], g3, by simp [e4], ?_⟩
  rw [e4]
  exact storeGet_storeDel_self _ phone

/-- C1 (amended) witness at a concrete store, phone and codes. -/
theorem verify_three_wrong_then_fourth_exceeded_witness :
    validate_phone "9876543210" = true ∧
    ((verify_otp 0 [("9876543210", ⟨"123456", 300, 0⟩)] "9876543210" "000000").1 =
      VerifyResult.invalidOtp 2 ∧
    (verify_otp 0 (verify_otp 0 [("9876543210", ⟨"123456", 300, 0⟩)]
        "9876543210" "000000").2 "9876543210" "000000").1 =
      VerifyResult.invalidOtp 1) := by
  have h := verify_three_wrong_then_fourth_exceeded "9876543210" "123456"
    "000000" "000000" "000000" "111111" 300 0 0 0 0
    [("9876543210", ⟨"123456", 300, 0⟩)]
    (by decide) (by decide) (by decide) (by decide) (by decide) (by decide)
    (by decide) (by decide) (by decide)
  exact ⟨by decide, h.1, h.2.1⟩

/-- C3: on a non-expired record the attempt counter is incremented
before the code comparison — a failed attempt with `attempt_count < 3`
reports `3 - (attempt_count + 1)` attempts remaining and stores the
incremented counter, a correct code with `attempt_count < 3` succeeds
(so the final attempt also consumes a slot), and a correct code when
`attempt_count` is already 3 is rejected with `AttemptsExceeded`. -/
theorem verify_increments_before_compare
    (now : Nat) (store : OTPStore) (phone code : String) (rec : OTPRecord)
    (hv : validate_phone phone = true)
    (hget : storeGet store phone = some rec) (hexp : ¬ now > rec.expiry) :
    (rec.attempts < 3 → rec.otp ≠ code →
      verify_otp now store phone code =
        (VerifyResult.invalidOtp (3 - (rec.attempts + 1)),
         storeSet store phone { rec with attempts := rec.attempts + 1 })) ∧
    (rec.attempts < 3 → rec.otp = code →
      verify_otp now store phone code = (VerifyResult.ok, storeDel store phone)) ∧
    (3 ≤ rec.attempts →
      verify_otp now store phone code =
        (VerifyResult.attemptsExceeded, storeDel store phone)) := by
  refine ⟨fun ha hc => ?_, fun ha hc => ?_, fun ha => ?_⟩
  · exact verify_otp_eq_wrong now store phone code rec hv hget hexp ha hc
  · exact verify_otp_eq_ok now store phone code rec hv hget hexp ha hc
  · exact verify_otp_eq_exceeded now store phone code rec hv hget hexp ha

/-- C3 witness: a correct code at `attempt_count = 3` is rejected, and
a wrong first attempt reports 2 attempts remaining. -/
theorem verify_increments_before_compare_witness :
    (verify_otp 0 [("9876543210", ⟨"123456", 300, 3⟩)] "9876543210" "123456" =
      (VerifyResult.attemptsExceeded, [])) ∧
    (verify_otp 0 [("9876543210", ⟨"123456", 300, 0⟩)] "9876543210" "000000" =
      (VerifyResult.invalidOtp 2,
       [("9876543210", ⟨"123456", 300, 1⟩)])) := by
  constructor
  · exact (verify_increments_before_compare 0 [("9876543210", ⟨"123456", 300, 3⟩)]
      "9876543210" "123456" ⟨"123456", 300, 3⟩ (by decide) (by decide)
      (by decide)).2.2 (by decide)
  · exact (verify_increments_before_compare 0 [("9876543210", ⟨"123456", 300, 0⟩)]
      "9876543210" "000000" ⟨"123456", 300, 0⟩ (by decide) (by decide)
      (by decide)).1 (by decide) (by decide)

/-- C6: a record whose expiry has passed fails `verify` with
`OtpExpired` regardless of the provided code (even the stored one), and
the call removes the record from the store. -/
theorem verify_expired_fails_and_removes
    (now : Nat) (store : OTPStore) (phone code : String) (rec : OTPRecord)
    (hv : validate_phone phone = true)
    (hget : storeGet store phone = some rec) (hexp : now > rec.expiry) :
    (verify_otp now store phone code).1 = VerifyResult.otpExpired ∧
    storeGet (verify_otp now store phone code).2 phone = none := by
  rw [verify_otp_eq_expired now store phone code rec hv hget hexp]
  exact ⟨rfl, storeGet_storeDel_self store phone⟩

/-- C6 witness at a concrete expired record, supplying the stored code
itself. -/
theorem verify_expired_fails_and_removes_witness :
    (verify_otp 301 [("9876543210", ⟨"123456", 300, 0⟩)] "9876543210" "123456").1 =
      VerifyResult.otpExpired ∧
    storeGet (verify_otp 301 [("9876543210", ⟨"123456", 300, 0⟩)]
      "9876543210" "123456").2 "9876543210" = none :=
  verify_expired_fails_and_removes 301 [("9876543210", ⟨"123456", 300, 0⟩)]
    "9876543210" "123456" ⟨"123456", 300, 0⟩ (by decide) (by decide) (by decide)

/-- C10: a failed wrong-code `verify` on a non-expired record with
`attempt_count < 3` leaves the record for that phone in place with the
same code and expiry and the counter incremented by one, and leaves the
record of every other phone unchanged. -/
theorem verify_wrong_code_frame
    (now : Nat) (store : OTPStore) (phone code : String) (rec : OTPRecord)
    (hv : validate_phone phone = true)
    (hget : storeGet store phone = some rec) (hexp : ¬ now > rec.expiry)
    (ha : rec.attempts < 3) (hc : rec.otp ≠ code) :
    (verify_otp now store phone code).1 =
      VerifyResult.invalidOtp (3 - (rec.attempts + 1)) ∧
    storeGet (verify_otp now store phone code).2 phone =
      some { otp := rec.otp, expiry := rec.expiry, attempts := rec.attempts + 1 } ∧
    ∀ p, p ≠ phone →
      storeGet (verify_otp now store phone code).2 p = storeGet store p := by
  rw [verify_otp_eq_wrong now store phone code rec hv hget hexp ha hc]
  refine ⟨rfl, storeGet_storeSet_self store phone _, fun p hp => ?_⟩
  exact storeGet_storeSet_other store phone p _ hp

/-- C10 witness: two-phone store, wrong code on the first phone leaves
the second phone's record untouched. -/
theorem verify_wrong_code_frame_witness :
    (verify_otp 0 [("9876543210", ⟨"123456", 300, 0⟩),
        ("8876543210", ⟨"654321", 200, 2⟩)] "9876543210" "000000").1 =
      VerifyResult.invalidOtp 2 ∧
    storeGet (verify_otp 0 [("9876543210", ⟨"123456", 300, 0⟩),
        ("8876543210", ⟨"654321", 200, 2⟩)] "9876543210" "000000").2 "9876543210" =
      some ⟨"123456", 300, 1⟩ ∧
    storeGet (verify_otp 0 [("9876543210", ⟨"123456", 300, 0⟩),
        ("8876543210", ⟨"654321", 200, 2⟩)] "9876543210" "000000").2 "8876543210" =
      storeGet [("9876543210", ⟨"123456", 300, 0⟩),
        ("8876543210", ⟨"654321", 200, 2⟩)] "8876543210" := by
  have h := verify_wrong_code_frame 0
    [("9876543210", ⟨"123456", 300, 0⟩), ("8876543210", ⟨"654321", 200, 2⟩)]
    "9876543210" "000000" ⟨"123456", 300, 0⟩
    (by decide) (by decide) (by decide) (by decide) (by decide)
  exact ⟨h.1, h.2.1, h.2.2 "8876543210" (by decide)⟩

theorem verify_otp_terminal_removed (now : Nat) (store : OTPStore) (phone code : String)
    (h : (verify_otp now store phone code).1 = VerifyResult.ok ∨
         (verify_otp now store phone code).1 = VerifyResult.otpExpired ∨
         (verify_otp now store phone code).1 = VerifyResult.attemptsExceeded) :
    storeGet (verify_otp now store phone code).2 phone = none := by
  by_cases hv : validate_phone phone = true
  · cases hget : storeGet store phone with
    | none =>
      rw [verify_otp_eq_noOtpFound now store phone code hv hget] at h
      simp at h
    | some rec =>
      by_cases hexp : now > rec.expiry
      · rw [verify_otp_eq_expired now store phone code rec hv hget hexp]
        exact storeGet_storeDel_self store phone
      · by_cases ha : 3 ≤ rec.attempts
        · rw [verify_otp_eq_exceeded now store phone code rec hv hget hexp ha]
          exact storeGet_storeDel_self store phone
        · by_cases hc : rec.otp = code
          · rw [verify_otp_eq_ok now store phone code rec hv hget hexp
              (Nat.lt_of_not_le ha) hc]
            exact storeGet_storeDel_self store phone
          · rw [verify_otp_eq_wrong now store phone code rec hv hget hexp
              (Nat.lt_of_not_le ha) hc] at h
            simp at h
  · simp only [verify_otp, if_neg hv] at h
    simp at h

theorem get_otp_status_expired_removed (now : Nat) (store : OTPStore) (phone : String)
    (h : (get_otp_status now store phone).1 = OtpStatus.absent "OTP has expired") :
    storeGet (get_otp_status now store phone).2 phone = none := by
  cases hget : storeGet store phone with
  | none =>
    rw [get_otp_status_eq_absent_none now store phone hget] at h
    exact absurd (OtpStatus.absent.inj h) (by decide)
  | some rec =>
    by_cases hexp : now > rec.expiry
    · rw [get_otp_status_eq_absent_expired now store phone rec hget hexp]
      exact storeGet_storeDel_self store phone
    · rw [get_otp_status_eq_present now store phone rec hget hexp] at h
      simp at h

/-- C2: with at most 3 attempts recorded on every stored record, every
operation — verify, generate (service and router), status, sweep,
resend — preserves that bound; moreover the very `verify` call whose
outcome is success, expiry or attempt exhaustion leaves no record for
the phone behind, and a `status` call that observes expiry removes the
record too. -/
theorem otp_store_invariants
    (now : Nat) (store : OTPStore) (phone code otp : String) (pick : Fin 6 → Fin 10)
    (h : AttemptsInv store) :
    AttemptsInv (verify_otp now store phone code).2 ∧
    AttemptsInv (generate_otp now store phone otp).2 ∧
    AttemptsInv (get_otp_status now store phone).2 ∧
    AttemptsInv (cleanup_expired_otps now store).2 ∧
    AttemptsInv (router_generate_otp now store phone pick).2 ∧
    AttemptsInv (router_resend_otp now store phone pick).2 ∧
    ((verify_otp now store phone code).1 = VerifyResult.ok ∨
     (verify_otp now store phone code).1 = VerifyResult.otpExpired ∨
     (verify_otp now store phone code).1 = VerifyResult.attemptsExceeded →
      storeGet (verify_otp now store phone code).2 phone = none) ∧
    ((get_otp_status now store phone).1 = OtpStatus.absent "OTP has expired" →
      storeGet (get_otp_status now store phone).2 phone = none) := by
  exact ⟨attemptsInv_verify_otp now store phone code h,
    attemptsInv_generate_otp now store phone otp h,
    attemptsInv_get_otp_status now store phone h,
    attemptsInv_cleanup now store h,
    attemptsInv_router_generate now store phone pick h,
    attemptsInv_router_resend now store phone pick h,
    verify_otp_terminal_removed now store phone code,
    get_otp_status_expired_removed now store phone⟩

/-- C2 witness at a concrete two-phone store, with a successful verify
removing the record. -/
theorem otp_store_invariants_witness :
    AttemptsInv [("9876543210", ⟨"123456", 300, 2⟩),
      ("8876543210", ⟨"654321", 100, 0⟩)] ∧
    AttemptsInv (verify_otp 0 [("9876543210", ⟨"123456", 300, 2⟩),
      ("8876543210", ⟨"654321", 100, 0⟩)] "9876543210" "123456").2 ∧
    storeGet (verify_otp 0 [("9876543210", ⟨"123456", 300, 2⟩),
      ("8876543210", ⟨"654321", 100, 0⟩)] "9876543210" "123456").2 "9876543210" =
      none := by
  have h := otp_store_invariants 0
    [("9876543210", ⟨"123456", 300, 2⟩), ("8876543210", ⟨"654321", 100, 0⟩)]
    "9876543210" "123456" "123456" (fun _ => 0) (by decide)
  exact ⟨by decide, h.1, h.2.2.2.2.2.2.1 (Or.inl (by decide))⟩

/-- C5: for a valid phone, `generate` succeeds and a first `verify`
within the expiry window with the generated code succeeds and removes
the record, so a second `verify` with the same phone and code fails with
`NoOtpFound` — the correct code is accepted exactly once. -/
theorem generate_then_verify_once
    (n1 n2 n3 : Nat) (store : OTPStore) (phone otp : String)
    (hv : validate_phone phone = true)
    (h2 : ¬ n2 > n1 + otp_expiry_minutes * 60) :
    (generate_otp n1 store phone otp).1 = GenerateResult.ok otp ∧
    (verify_otp n2 (generate_otp n1 store phone otp).2 phone otp).1 =
      VerifyResult.ok ∧
    storeGet (verify_otp n2 (generate_otp n1 store phone otp).2 phone otp).2 phone =
      none ∧
    (verify_otp n3 (verify_otp n2 (generate_otp n1 store phone otp).2 phone otp).2
        phone otp).1 = VerifyResult.noOtpFound := by
  have eg := generate_otp_eq_ok n1 store phone otp hv
  have hg : storeGet (generate_otp n1 store phone otp).2 phone =
      some { otp := otp, expiry := n1 + otp_expiry_minutes * 60, attempts := 0 } := by
    rw [eg]; exact storeGet_storeSet_self store phone _
  have e1 := verify_otp_eq_ok n2 (generate_otp n1 store phone otp).2 phone otp
    { otp := otp, expiry := n1 + otp_expiry_minutes * 60, attempts := 0 }
    hv hg h2 (by simp) rfl
  have hnone : storeGet (verify_otp n2 (generate_otp n1 store phone otp).2
      phone otp).2 phone = none := by
    rw [e1]; exact storeGet_storeDel_self _ phone
  have e2 := verify_otp_eq_noOtpFound n3
    (verify_otp n2 (generate_otp n1 store phone otp).2 phone otp).2 phone otp hv hnone
  exact ⟨by rw [eg], by rw [e1], hnone, by rw [e2]⟩

/-- C5 witness at a concrete phone, code and times. -/
theorem generate_then_verify_once_witness :
    (generate_otp 0 [] "9876543210" "123456").1 = GenerateResult.ok "123456" ∧
    (verify_otp 10 (generate_otp 0 [] "9876543210" "123456").2
        "9876543210" "123456").1 = VerifyResult.ok ∧
    (verify_otp 20 (verify_otp 10 (generate_otp 0 [] "9876543210" "123456").2
        "9876543210" "123456").2 "9876543210" "123456").1 =
      VerifyResult.noOtpFound := by
  have h := generate_then_verify_once 0 10 20 [] "9876543210" "123456"
    (by decide) (by decide)
  exact ⟨h.1, h.2.1, h.2.2.2⟩

theorem genCode_length (pick : Fin 6 → Fin 10) : (genCode pick).length = 6 := by
  simp [genCode, String.length]

theorem genCode_digits (pick : Fin 6 → Fin 10) :
    ∀ c ∈ (genCode pick).toList, c.isDigit = true := by
  intro c hc
  simp only [genCode, String.toList, List.mem_map] at hc
  obtain ⟨i, hi, rfl⟩ := hc
  have hall : ∀ d : Fin 10, (Char.ofNat (48 + d.val)).isDigit = true := by decide
  exact hall (pick i)

/-- C4: for a valid phone whose cleaned form holds a non-expired record,
the `/generate-otp` endpoint refuses and leaves the store untouched;
whenever it does answer `generated`, no non-expired record existed for
the cleaned phone beforehand, and the new record carries the freshly
drawn 6-digit numeric code, `expires_at = now + 5 minutes` and
`attempt_count = 0`. -/
theorem router_generate_refused_or_fresh
    (now : Nat) (store : OTPStore) (phone : String) (pick : Fin 6 → Fin 10)
    (hv : validate_phone (pyStrip phone) = true) :
    (∀ rec, storeGet store (clean_phone (pyStrip phone)) = some rec → ¬ now > rec.expiry →
      router_generate_otp now store phone pick =
        (RouterGenerateResult.alreadySent
          (OtpStatus.present (3 - rec.attempts) (rec.expiry - now)), store)) ∧
    (∀ otp, (router_generate_otp now store phone pick).1 =
        RouterGenerateResult.generated otp →
      (∀ rec, storeGet store (clean_phone (pyStrip phone)) = some rec → now > rec.expiry) ∧
      otp = genCode pick ∧
      storeGet (router_generate_otp now store phone pick).2 (clean_phone (pyStrip phone)) =
        some { otp := genCode pick, expiry := now + otp_expiry_minutes * 60,
               attempts := 0 } ∧
      (genCode pick).length = 6 ∧
      (∀ c ∈ (genCode pick).toList, c.isDigit = true)) := by
  constructor
  · intro rec hget hexp
    have hs := get_otp_status_eq_present now store (clean_phone (pyStrip phone)) rec hget hexp
    simp [router_generate_otp, hv, hs]
  · intro otp h
    cases hget : storeGet store (clean_phone (pyStrip phone)) with
    | some rec =>
      by_cases hexp : now > rec.expiry
      · have hs := get_otp_status_eq_absent_expired now store
          (clean_phone (pyStrip phone)) rec hget hexp
        by_cases hvc : validate_phone (clean_phone (pyStrip phone)) = true
        · have hgen := generate_otp_eq_ok now (storeDel store (clean_phone (pyStrip phone)))
            (clean_phone (pyStrip phone)) (genCode pick) hvc
          have hr : router_generate_otp now store phone pick =
              (RouterGenerateResult.generated (genCode pick),
               storeSet (storeDel store (clean_phone (pyStrip phone)))
                 (clean_phone (pyStrip phone))
                 { otp := genCode pick, expiry := now + otp_expiry_minutes * 60,
                   attempts := 0 }) := by
            simp [router_generate_otp, hv, hs, hgen]
          rw [hr] at h
          refine ⟨fun rec' hget' => ?_, ?_, ?_, genCode_length pick, genCode_digits pick⟩
          · have heq : rec = rec' := Option.some.inj hget'
            exact heq ▸ hexp
          · exact (RouterGenerateResult.generated.inj h).symm
          · rw [hr]
            exact storeGet_storeSet_self _ _ _
        · have hgen : generate_otp now (storeDel store (clean_phone (pyStrip phone)))
              (clean_phone (pyStrip phone)) (genCode pick) =
              (GenerateResult.invalidPhone,
               storeDel store (clean_phone (pyStrip phone))) := by
            simp [generate_otp, hvc]
          have hr : router_generate_otp now store phone pick =
              (RouterGenerateResult.invalidPhone,
               storeDel store (clean_phone (pyStrip phone))) := by
            simp [router_generate_otp, hv, hs, hgen]
          rw [hr] at h
          simp at h
      · have hs := get_otp_status_eq_present now store (clean_phone (pyStrip phone))
          rec hget hexp
        have hr : router_generate_otp now store phone pick =
            (RouterGenerateResult.alreadySent
              (OtpStatus.present (3 - rec.attempts) (rec.expiry - now)), store) := by
          simp [router_generate_otp, hv, hs]
        rw [hr] at h
        simp at h
    | none =>
      have hs := get_otp_status_eq_absent_none now store (clean_phone (pyStrip phone)) hget
      by_cases hvc : validate_phone (clean_phone (pyStrip phone)) = true
      · have hgen := generate_otp_eq_ok now store (clean_phone (pyStrip phone))
          (genCode pick) hvc
        have hr : router_generate_otp now store phone pick =
            (RouterGenerateResult.generated (genCode pick),
             storeSet store (clean_phone (pyStrip phone))
               { otp := genCode pick, expiry := now + otp_expiry_minutes * 60,
                 attempts := 0 }) := by
          simp [router_generate_otp, hv, hs, hgen]
        rw [hr] at h
        refine ⟨fun rec' hget' => ?_, ?_, ?_, genCode_length pick, genCode_digits pick⟩
        · exact absurd hget' (by simp)
        · exact (RouterGenerateResult.generated.inj h).symm
        · rw [hr]
          exact storeGet_storeSet_self _ _ _
      · have hgen : generate_otp now store (clean_phone (pyStrip phone)) (genCode pick) =
            (GenerateResult.invalidPhone, store) := by
          simp [generate_otp, hvc]
        have hr : router_generate_otp now store phone pick =
            (RouterGenerateResult.invalidPhone, store) := by
          simp [router_generate_otp, hv, hs, hgen]
        rw [hr] at h
        simp at h

/-- C4 witness: refusal on a live record, and fresh-record creation on
an empty store. -/
theorem router_generate_refused_or_fresh_witness :
    router_generate_otp 0 [("9876543210", ⟨"123456", 300, 0⟩)] "9876543210"
      (fun _ => 1) =
      (RouterGenerateResult.alreadySent (OtpStatus.present 3 300),
       [("9876543210", ⟨"123456", 300, 0⟩)]) ∧
    storeGet (router_generate_otp 0 [] "9876543210" (fun _ => 1)).2 "9876543210" =
      some ⟨"111111", 300, 0⟩ := by
  constructor
  · exact (router_generate_refused_or_fresh 0 [("9876543210", ⟨"123456", 300, 0⟩)]
      "9876543210" (fun _ => 1) (by decide)).1 ⟨"123456", 300, 0⟩ (by decide) (by decide)
  · exact ((router_generate_refused_or_fresh 0 [] "9876543210" (fun _ => 1)
      (by decide)).2 "111111" (by decide)).2.2.1

/-- The spec's wording of phone validation, stated independently of the
implementation: after stripping all non-digit characters exactly 10
digits remain and the leading digit is 6, 7, 8 or 9. -/
def validate_phone_spec (phone : String) : Prop :=
  (stripNonDigits phone).length = 10 ∧
    ∃ c rest, (stripNonDigits phone).toList = c :: rest ∧
      (c = '6' ∨ c = '7' ∨ c = '8' ∨ c = '9')

theorem validate_list_iff (l : List Char) :
    (l.length == 10 && (match l with
      | c :: _ => c == '6' || c == '7' || c == '8' || c == '9'
      | [] => false)) = true
    ↔ (l.length = 10 ∧ ∃ c rest, l = c :: rest ∧
        (c = '6' ∨ c = '7' ∨ c = '8' ∨ c = '9')) := by
  cases l with
  | nil => simp
  | cons c rest =>
    simp [List.cons.injEq, and_assoc]
    tauto

theorem validate_phone_iff (phone : String) :
    validate_phone phone = true ↔ validate_phone_spec phone := by
  have he : validate_phone phone =
      ((stripNonDigits phone).toList.length == 10 &&
       (match (stripNonDigits phone).toList with
        | c :: _ => c == '6' || c == '7' || c == '8' || c == '9'
        | [] => false)) := rfl
  have hlen : (stripNonDigits phone).length = (stripNonDigits phone).toList.length := rfl
  rw [he]
  unfold validate_phone_spec
  rw [hlen]
  exact validate_list_iff (stripNonDigits phone).toList

/-- C7: `validate_phone` accepts a phone iff, after stripping all
non-digit characters, exactly 10 digits remain and the leading digit is
6, 7, 8 or 9; both `generate_otp` and `verify_otp` fail (store
untouched) on a phone that does not pass it; in particular
`"5123456789"` is rejected. -/
theorem phone_validation_spec_and_enforced
    (phone : String) (now : Nat) (store : OTPStore) (code otp : String) :
    (validate_phone phone = true ↔ validate_phone_spec phone) ∧
    (validate_phone phone = false →
      generate_otp now store phone otp = (GenerateResult.invalidPhone, store) ∧
      verify_otp now store phone code = (VerifyResult.invalidPhone, store)) ∧
    validate_phone "5123456789" = false := by
  refine ⟨validate_phone_iff phone, fun hf => ⟨?_, ?_⟩, by decide⟩
  · simp [generate_otp, hf]
  · simp [verify_otp, hf]

/-- C7 witness: both operations reject the leading-5 phone. -/
theorem phone_validation_spec_and_enforced_witness :
    validate_phone "5123456789" = false ∧
    generate_otp 0 [] "5123456789" "123456" = (GenerateResult.invalidPhone, []) ∧
    verify_otp 0 [] "5123456789" "123456" = (VerifyResult.invalidPhone, []) := by
  have h := phone_validation_spec_and_enforced "5123456789" 0 [] "123456" "123456"
  exact ⟨h.2.2, (h.2.1 h.2.2).1, (h.2.1 h.2.2).2⟩

/-- C8: in the comparison tail, a two-neighbour pair is a good match
iff `d1 < 0.7 * d2`; confidence equals
`(good_match_count / min(total_descriptors_A, total_descriptors_B)) * 100`
capped at 100; `matched` holds iff confidence ≥ 15; and zero good
matches after the ratio test give confidence 0 and `matched = false`. -/
theorem compare_ratio_confidence_threshold
    (lenA lenB : Nat) (knn_matches : List (List ℚ))
    (hA : 5 ≤ lenA) (hB : 5 ≤ lenB) :
    (∀ d1 d2 : ℚ, isGoodMatch [d1, d2] = true ↔ d1 < 7/10 * d2) ∧
    (compare_from_matches lenA lenB knn_matches).good_matches =
      (knn_matches.filter isGoodMatch).length ∧
    (compare_from_matches lenA lenB knn_matches).confidence =
      min (((knn_matches.filter isGoodMatch).length : ℚ) / (min lenA lenB : ℚ) * 100)
        100 ∧
    ((compare_from_matches lenA lenB knn_matches).is_match = true ↔
      15 ≤ (compare_from_matches lenA lenB knn_matches).confidence) ∧
    ((knn_matches.filter isGoodMatch).length = 0 →
      (compare_from_matches lenA lenB knn_matches).confidence = 0 ∧
      (compare_from_matches lenA lenB knn_matches).is_match = false) := by
  have hminQ : (1 : ℚ) ≤ (lenA : ℚ) ⊓ (lenB : ℚ) := by
    rw [← Nat.cast_min]
    exact_mod_cast le_min (le_trans (by norm_num) hA) (le_trans (by norm_num) hB)
  have hmaxQ : ((lenA : ℚ) ⊓ (lenB : ℚ)) ⊔ 1 = (lenA : ℚ) ⊓ (lenB : ℚ) :=
    max_eq_left hminQ
  by_cases hm : knn_matches.length > 0
  · have hc : (compare_from_matches lenA lenB knn_matches).confidence =
        min (((knn_matches.filter isGoodMatch).length : ℚ) /
          (min lenA lenB : ℚ) * 100) 100 := by
      simp [compare_from_matches, hm, hmaxQ]
    have hiff : (compare_from_matches lenA lenB knn_matches).is_match = true ↔
        15 ≤ (compare_from_matches lenA lenB knn_matches).confidence := by
      simp [compare_from_matches, hm, match_threshold, decide_eq_true_iff, ge_iff_le]
    refine ⟨fun d1 d2 => by simp [isGoodMatch],
      by simp [compare_from_matches, hm], hc, hiff, ?_⟩
    intro h0
    have h1 : (compare_from_matches lenA lenB knn_matches).confidence = 0 := by
      rw [hc, h0]
      norm_num
    refine ⟨h1, ?_⟩
    by_contra hb
    rw [Bool.not_eq_false] at hb
    have h15 := hiff.mp hb
    rw [h1] at h15
    norm_num at h15
  · have hnil : knn_matches = [] := List.length_eq_zero.mp (Nat.eq_zero_of_not_pos hm)
    subst hnil
    refine ⟨fun d1 d2 => by simp [isGoodMatch], by simp [compare_from_matches],
      by simp [compare_from_matches], ?_, ?_⟩
    · simp [compare_from_matches]
    · intro h0
      exact ⟨by simp [compare_from_matches], by simp [compare_from_matches]⟩

/-- C8 witness: descriptor counts 10 and 8, three neighbour pairs of
which exactly one passes the ratio test. -/
theorem compare_ratio_confidence_threshold_witness :
    (5 ≤ 10 ∧ 5 ≤ 8) ∧
    (compare_from_matches 10 8 [[1, 2], [3, (4 : ℚ)], [5]]).good_matches =
      (([[1, 2], [3, (4 : ℚ)], [5]] : List (List ℚ)).filter isGoodMatch).length ∧
    ((compare_from_matches 10 8 [[1, 2], [3, (4 : ℚ)], [5]]).is_match = true ↔
      15 ≤ (compare_from_matches 10 8 [[1, 2], [3, (4 : ℚ)], [5]]).confidence) := by
  have h := compare_ratio_confidence_threshold 10 8 [[1, 2], [3, (4 : ℚ)], [5]]
    (by norm_num) (by norm_num)
  exact ⟨⟨by norm_num, by norm_num⟩, h.2.1, h.2.2.2.1⟩

/-- C9 counterexample: an image with two detected faces, each of area
1600 px² ≥ 1000, passes `validate_face_quality` with `is_valid = true`
— multiple faces is not reported as a validation failure there,
contradicting the claim. -/
theorem validate_quality_multiple_faces_counterexample :
    ([⟨0, 0, 40, 40⟩, ⟨50, 50, 40, 40⟩] : List FaceBox).length = 2 ∧
    (validate_face_quality [⟨0, 0, 40, 40⟩, ⟨50, 50, 40, 40⟩]).is_valid = true := by
  decide

theorem multiple_faces_reason_ne_no_face (x : String) :
    ("Multiple faces detected (" ++ x ++ ")") ≠ "No face detected" := by
  intro h
  have h2 : ("Multiple faces detected (" ++ x ++ ")").data.head? =
      ("No face detected").data.head? := by rw [h]
  rw [String.data_append, String.data_append] at h2
  have hM : ("Multiple faces detected (").data =
      'M' :: ("ultiple faces detected (").data := rfl
  have hN : ("No face detected").data = 'N' :: ("o face detected").data := rfl
  rw [hM, hN] at h2
  simp at h2

/-- C9 (amended): `validate_face_quality` is invalid on zero faces and
on a largest-face area below 1000 px², but reports multi-face images
with a sufficiently large face as valid; the multiple-faces failure,
with a reason distinct from the zero-face reason, is produced by the
fallback validator `_validate_with_opencv`, which has no area floor. -/
theorem face_quality_validation_amended
    (f : FaceBox) (fs : List FaceBox) (faces : List FaceBox) :
    (validate_face_quality []).is_valid = false ∧
    (faceArea (largestFace f fs) < 1000 →
      validate_face_quality (f :: fs) =
        { is_valid := false, reason := "Face too small or unclear" }) ∧
    (1000 ≤ faceArea (largestFace f fs) →
      (validate_face_quality (f :: fs)).is_valid = true) ∧
    validate_with_opencv (some []) =
      { is_valid := false, reason := "No face detected" } ∧
    (1 < faces.length →
      (validate_with_opencv (some faces)).is_valid = false ∧
      (validate_with_opencv (some faces)).reason ≠ "No face detected") := by
  refine ⟨rfl, fun hsmall => ?_, fun hbig => ?_, rfl, fun hmany => ?_⟩
  · simp [validate_face_quality, hsmall]
  · simp [validate_face_quality, Nat.not_lt.mpr hbig]
  · have hne : faces.length ≠ 0 := by omega
    refine ⟨by simp [validate_with_opencv, hne, hmany], ?_⟩
    simp only [validate_with_opencv, if_neg hne, if_pos hmany]
    exact multiple_faces_reason_ne_no_face (toString faces.length)

/-- C9 (amended) witness: a small single face fails the area floor, a
large single face passes, and the fallback validator rejects a two-face
image with the multiple-faces reason. -/
theorem face_quality_validation_amended_witness :
    (validate_face_quality [⟨0, 0, 20, 20⟩] =
      { is_valid := false, reason := "Face too small or unclear" }) ∧
    (validate_face_quality [⟨0, 0, 40, 40⟩]).is_valid = true ∧
    (validate_with_opencv (some [⟨0, 0, 40, 40⟩, ⟨50, 50, 40, 40⟩])).is_valid =
      false := by
  have h1 := face_quality_validation_amended ⟨0, 0, 20, 20⟩ []
    [⟨0, 0, 40, 40⟩, ⟨50, 50, 40, 40⟩]
  have h2 := face_quality_validation_amended ⟨0, 0, 40, 40⟩ []
    [⟨0, 0, 40, 40⟩, ⟨50, 50, 40, 40⟩]
  exact ⟨h1.2.1 (by decide), h2.2.2.1 (by decide), (h1.2.2.2.2 (by decide)).1⟩

end CredExtract
